import Mathlib

/-!
Shallow embedding of the Wayland WSI presentation layer
(src/vulkan/wsi/wsi_common_wayland.c): the format catalog, the
per-surface dma-buf feedback state machine, and the swapchain
acquire / present engine.  Machine integers are modelled as Nat
(all the involved values are non-negative and no arithmetic in the
modelled code can overflow); VkResult is modelled as Int because
Vulkan error codes are negative.  I/O (event dispatch, poll,
prepare-read) is modelled by explicit oracles: each loop iteration
consumes one record describing the outcomes the environment
produced for that iteration's system calls.
-/

namespace WsiWayland

/-! ## Constants from the Vulkan and DRM headers used by the code -/

/-- VK_SUCCESS -/
def VK_SUCCESS : Int := 0
/-- VK_NOT_READY -/
def VK_NOT_READY : Int := 1
/-- VK_SUBOPTIMAL_KHR -/
def VK_SUBOPTIMAL_KHR : Int := 1000001003
/-- VK_ERROR_OUT_OF_DATE_KHR -/
def VK_ERROR_OUT_OF_DATE_KHR : Int := -1000001004
/-- VK_ERROR_OUT_OF_HOST_MEMORY -/
def VK_ERROR_OUT_OF_HOST_MEMORY : Int := -1
/-- VK_ERROR_SURFACE_LOST_KHR -/
def VK_ERROR_SURFACE_LOST_KHR : Int := -1000000000

/-- VK_PRESENT_MODE_MAILBOX_KHR -/
def VK_PRESENT_MODE_MAILBOX_KHR : Nat := 1
/-- VK_PRESENT_MODE_FIFO_KHR -/
def VK_PRESENT_MODE_FIFO_KHR : Nat := 2

/-- errno EINTR on Linux -/
def EINTR : Nat := 4
/-- errno EAGAIN on Linux -/
def EAGAIN : Nat := 11

/-- fourcc_code from drm_fourcc.h: four character codes packed little endian -/
def fourcc_code (a b c d : Nat) : Nat := a ||| (b <<< 8) ||| (c <<< 16) ||| (d <<< 24)

/-- DRM_FORMAT_MOD_INVALID = fourcc_mod_code(NONE, DRM_FORMAT_RESERVED):
vendor 0 in the top 8 bits, (1 << 56) - 1 below. -/
def DRM_FORMAT_MOD_INVALID : Nat := 2 ^ 56 - 1

def DRM_FORMAT_RGBA4444 : Nat := fourcc_code 82 65 49 50
def DRM_FORMAT_RGBX4444 : Nat := fourcc_code 82 88 49 50
def DRM_FORMAT_BGRA4444 : Nat := fourcc_code 66 65 49 50
def DRM_FORMAT_BGRX4444 : Nat := fourcc_code 66 88 49 50
def DRM_FORMAT_RGB565 : Nat := fourcc_code 82 71 49 54
def DRM_FORMAT_BGR565 : Nat := fourcc_code 66 71 49 54
def DRM_FORMAT_ARGB1555 : Nat := fourcc_code 65 82 49 53
def DRM_FORMAT_XRGB1555 : Nat := fourcc_code 88 82 49 53
def DRM_FORMAT_RGBA5551 : Nat := fourcc_code 82 65 49 53
def DRM_FORMAT_RGBX5551 : Nat := fourcc_code 82 88 49 53
def DRM_FORMAT_BGRA5551 : Nat := fourcc_code 66 65 49 53
def DRM_FORMAT_BGRX5551 : Nat := fourcc_code 66 88 49 53
def DRM_FORMAT_ARGB2101010 : Nat := fourcc_code 65 82 51 48
def DRM_FORMAT_XRGB2101010 : Nat := fourcc_code 88 82 51 48
def DRM_FORMAT_ABGR2101010 : Nat := fourcc_code 65 66 51 48
def DRM_FORMAT_XBGR2101010 : Nat := fourcc_code 88 66 51 48
def DRM_FORMAT_XBGR8888 : Nat := fourcc_code 88 66 50 52
def DRM_FORMAT_ABGR8888 : Nat := fourcc_code 65 66 50 52
def DRM_FORMAT_XRGB8888 : Nat := fourcc_code 88 82 50 52
def DRM_FORMAT_ARGB8888 : Nat := fourcc_code 65 82 50 52

def VK_FORMAT_R4G4B4A4_UNORM_PACK16 : Nat := 2
def VK_FORMAT_B4G4R4A4_UNORM_PACK16 : Nat := 3
def VK_FORMAT_R5G6B5_UNORM_PACK16 : Nat := 4
def VK_FORMAT_B5G6R5_UNORM_PACK16 : Nat := 5
def VK_FORMAT_R5G5B5A1_UNORM_PACK16 : Nat := 6
def VK_FORMAT_B5G5R5A1_UNORM_PACK16 : Nat := 7
def VK_FORMAT_A1R5G5B5_UNORM_PACK16 : Nat := 8
def VK_FORMAT_R8G8B8_UNORM : Nat := 23
def VK_FORMAT_R8G8B8_SRGB : Nat := 29
def VK_FORMAT_B8G8R8_UNORM : Nat := 30
def VK_FORMAT_B8G8R8_SRGB : Nat := 36
def VK_FORMAT_R8G8B8A8_UNORM : Nat := 37
def VK_FORMAT_R8G8B8A8_SRGB : Nat := 43
def VK_FORMAT_B8G8R8A8_UNORM : Nat := 44
def VK_FORMAT_B8G8R8A8_SRGB : Nat := 50
def VK_FORMAT_A2R10G10B10_UNORM_PACK32 : Nat := 58
def VK_FORMAT_A2B10G10R10_UNORM_PACK32 : Nat := 64

/-- WSI_WL_FMT_ALPHA -/
def WSI_WL_FMT_ALPHA : Nat := 1
/-- WSI_WL_FMT_OPAQUE -/
def WSI_WL_FMT_OPAQUE : Nat := 2

/-! ## Format catalog (struct wsi_wl_format and its operations)

A u_vector of formats is modelled as a list in insertion order
(u_vector_add appends, u_vector_foreach and u_vector_tail iterate
from the oldest element); a u_vector of modifiers likewise. -/

/-- struct wsi_wl_format: one catalog entry. -/
structure wsi_wl_format where
  vk_format : Nat
  flags : Nat
  modifiers : List Nat
deriving DecidableEq, Repr

/-- find_format: first entry of the vector whose vk_format matches. -/
def find_format (formats : List wsi_wl_format) (format : Nat) : Option wsi_wl_format :=
  formats.find? (fun f => f.vk_format == format)

/-- Applies g to the entry find_format would return (the first match),
modelling an update through the pointer that find_format yields. -/
def update_format (formats : List wsi_wl_format) (format : Nat)
    (g : wsi_wl_format → wsi_wl_format) : List wsi_wl_format :=
  match formats with
  | [] => []
  | f :: rest =>
    if f.vk_format == format then g f :: rest
    else f :: update_format rest format g

/-- wsi_wl_display_add_vk_format.  The renderability test performed through
GetPhysicalDeviceFormatProperties (COLOR_ATTACHMENT optimal tiling feature)
is abstracted by the device-supplied predicate renderable.  Returns the new
vector together with whether the returned pointer was non-NULL (an entry for
this format exists: either the pre-existing entry with flags or-ed in, or a
freshly appended entry).  The code asserts
flags & (WSI_WL_FMT_ALPHA | WSI_WL_FMT_OPAQUE) != 0 on entry. -/
def wsi_wl_display_add_vk_format (renderable : Nat → Bool)
    (formats : List wsi_wl_format) (format flags : Nat) :
    List wsi_wl_format × Bool :=
  match find_format formats format with
  | some _ =>
    (update_format formats format (fun f => { f with flags := f.flags ||| flags }), true)
  | none =>
    if renderable format then
      (formats ++ [{ vk_format := format, flags := flags, modifiers := [] }], true)
    else
      (formats, false)

/-- wsi_wl_format_add_modifier: ignore the DRM invalid sentinel, dedupe,
otherwise append. -/
def wsi_wl_format_add_modifier (format : wsi_wl_format) (modifier : Nat) :
    wsi_wl_format :=
  if modifier == DRM_FORMAT_MOD_INVALID then format
  else if format.modifiers.contains modifier then format
  else { format with modifiers := format.modifiers ++ [modifier] }

/-- wsi_wl_display_add_vk_format_modifier: add the format, and when that
yielded an entry, add the modifier to it. -/
def wsi_wl_display_add_vk_format_modifier (renderable : Nat → Bool)
    (formats : List wsi_wl_format) (vk_format flags modifier : Nat) :
    List wsi_wl_format :=
  match wsi_wl_display_add_vk_format renderable formats vk_format flags with
  | (formats2, true) =>
    update_format formats2 vk_format (fun f => wsi_wl_format_add_modifier f modifier)
  | (formats2, false) => formats2

/-- wsi_wl_display_add_drm_format_modifier: the switch over DRM fourcc codes
(little-endian build, so the MESA_LITTLE_ENDIAN cases are present; the
cases disabled with if-0 in the source are omitted).  Unlisted DRM formats
fall through the switch and add nothing. -/
def wsi_wl_display_add_drm_format_modifier (renderable : Nat → Bool)
    (formats : List wsi_wl_format) (drm_format modifier : Nat) :
    List wsi_wl_format :=
  if drm_format = DRM_FORMAT_RGBA4444 then
    wsi_wl_display_add_vk_format_modifier renderable formats
      VK_FORMAT_R4G4B4A4_UNORM_PACK16 WSI_WL_FMT_ALPHA modifier
  else if drm_format = DRM_FORMAT_RGBX4444 then
    wsi_wl_display_add_vk_format_modifier renderable formats
      VK_FORMAT_R4G4B4A4_UNORM_PACK16 WSI_WL_FMT_OPAQUE modifier
  else if drm_format = DRM_FORMAT_BGRA4444 then
    wsi_wl_display_add_vk_format_modifier renderable formats
      VK_FORMAT_B4G4R4A4_UNORM_PACK16 WSI_WL_FMT_ALPHA modifier
  else if drm_format = DRM_FORMAT_BGRX4444 then
    wsi_wl_display_add_vk_format_modifier renderable formats
      VK_FORMAT_B4G4R4A4_UNORM_PACK16 WSI_WL_FMT_OPAQUE modifier
  else if drm_format = DRM_FORMAT_RGB565 then
    wsi_wl_display_add_vk_format_modifier renderable formats
      VK_FORMAT_R5G6B5_UNORM_PACK16 (WSI_WL_FMT_ALPHA ||| WSI_WL_FMT_OPAQUE) modifier
  else if drm_format = DRM_FORMAT_BGR565 then
    wsi_wl_display_add_vk_format_modifier renderable formats
      VK_FORMAT_B5G6R5_UNORM_PACK16 (WSI_WL_FMT_ALPHA ||| WSI_WL_FMT_OPAQUE) modifier
  else if drm_format = DRM_FORMAT_ARGB1555 then
    wsi_wl_display_add_vk_format_modifier renderable formats
      VK_FORMAT_A1R5G5B5_UNORM_PACK16 WSI_WL_FMT_ALPHA modifier
  else if drm_format = DRM_FORMAT_XRGB1555 then
    wsi_wl_display_add_vk_format_modifier renderable formats
      VK_FORMAT_A1R5G5B5_UNORM_PACK16 WSI_WL_FMT_OPAQUE modifier
  else if drm_format = DRM_FORMAT_RGBA5551 then
    wsi_wl_display_add_vk_format_modifier renderable formats
      VK_FORMAT_R5G5B5A1_UNORM_PACK16 WSI_WL_FMT_ALPHA modifier
  else if drm_format = DRM_FORMAT_RGBX5551 then
    wsi_wl_display_add_vk_format_modifier renderable formats
      VK_FORMAT_R5G5B5A1_UNORM_PACK16 WSI_WL_FMT_OPAQUE modifier
  else if drm_format = DRM_FORMAT_BGRA5551 then
    wsi_wl_display_add_vk_format_modifier renderable formats
      VK_FORMAT_B5G5R5A1_UNORM_PACK16 WSI_WL_FMT_ALPHA modifier
  else if drm_format = DRM_FORMAT_BGRX5551 then
    wsi_wl_display_add_vk_format_modifier renderable formats
      VK_FORMAT_B5G5R5A1_UNORM_PACK16 WSI_WL_FMT_OPAQUE modifier
  else if drm_format = DRM_FORMAT_ARGB2101010 then
    wsi_wl_display_add_vk_format_modifier renderable formats
      VK_FORMAT_A2R10G10B10_UNORM_PACK32 WSI_WL_FMT_ALPHA modifier
  else if drm_format = DRM_FORMAT_XRGB2101010 then
    wsi_wl_display_add_vk_format_modifier renderable formats
      VK_FORMAT_A2R10G10B10_UNORM_PACK32 WSI_WL_FMT_OPAQUE modifier
  else if drm_format = DRM_FORMAT_ABGR2101010 then
    wsi_wl_display_add_vk_format_modifier renderable formats
      VK_FORMAT_A2B10G10R10_UNORM_PACK32 WSI_WL_FMT_ALPHA modifier
  else if drm_format = DRM_FORMAT_XBGR2101010 then
    wsi_wl_display_add_vk_format_modifier renderable formats
      VK_FORMAT_A2B10G10R10_UNORM_PACK32 WSI_WL_FMT_OPAQUE modifier
  else if drm_format = DRM_FORMAT_XBGR8888 then
    let fs := wsi_wl_display_add_vk_format_modifier renderable formats
      VK_FORMAT_R8G8B8_SRGB (WSI_WL_FMT_ALPHA ||| WSI_WL_FMT_OPAQUE) modifier
    let fs := wsi_wl_display_add_vk_format_modifier renderable fs
      VK_FORMAT_R8G8B8_UNORM (WSI_WL_FMT_ALPHA ||| WSI_WL_FMT_OPAQUE) modifier
    let fs := wsi_wl_display_add_vk_format_modifier renderable fs
      VK_FORMAT_R8G8B8A8_SRGB WSI_WL_FMT_OPAQUE modifier
    wsi_wl_display_add_vk_format_modifier renderable fs
      VK_FORMAT_R8G8B8A8_UNORM WSI_WL_FMT_OPAQUE modifier
  else if drm_format = DRM_FORMAT_ABGR8888 then
    let fs := wsi_wl_display_add_vk_format_modifier renderable formats
      VK_FORMAT_R8G8B8A8_SRGB WSI_WL_FMT_ALPHA modifier
    wsi_wl_display_add_vk_format_modifier renderable fs
      VK_FORMAT_R8G8B8A8_UNORM WSI_WL_FMT_ALPHA modifier
  else if drm_format = DRM_FORMAT_XRGB8888 then
    let fs := wsi_wl_display_add_vk_format_modifier renderable formats
      VK_FORMAT_B8G8R8_SRGB (WSI_WL_FMT_ALPHA ||| WSI_WL_FMT_OPAQUE) modifier
    let fs := wsi_wl_display_add_vk_format_modifier renderable fs
      VK_FORMAT_B8G8R8_UNORM (WSI_WL_FMT_ALPHA ||| WSI_WL_FMT_OPAQUE) modifier
    let fs := wsi_wl_display_add_vk_format_modifier renderable fs
      VK_FORMAT_B8G8R8A8_SRGB WSI_WL_FMT_OPAQUE modifier
    wsi_wl_display_add_vk_format_modifier renderable fs
      VK_FORMAT_B8G8R8A8_UNORM WSI_WL_FMT_OPAQUE modifier
  else if drm_format = DRM_FORMAT_ARGB8888 then
    let fs := wsi_wl_display_add_vk_format_modifier renderable formats
      VK_FORMAT_B8G8R8A8_SRGB WSI_WL_FMT_ALPHA modifier
    wsi_wl_display_add_vk_format_modifier renderable fs
      VK_FORMAT_B8G8R8A8_UNORM WSI_WL_FMT_ALPHA modifier
  else
    formats

/-! ## dma-buf feedback data model -/

/-- Memory backing a format table: NULL pointer (never set, or reset by
dmabuf_feedback_format_table_init), MAP_FAILED (mmap failure), or a mapped
region holding an array of 16-byte records.  A record is modelled as the
pair (format, modifier); the 32-bit padding field is unused by the code. -/
inductive table_data where
  | null : table_data
  | map_failed : table_data
  | mapped : List (Nat × Nat) → table_data
deriving DecidableEq, Repr

/-- struct dmabuf_feedback_format_table: byte size of the mapping plus the
backing memory. -/
structure dmabuf_feedback_format_table where
  size : Nat
  data : table_data
deriving DecidableEq, Repr

/-- dmabuf_feedback_format_table_init: memset to zero. -/
def dmabuf_feedback_format_table_initial : dmabuf_feedback_format_table :=
  { size := 0, data := table_data.null }

/-- struct dmabuf_feedback_tranche.  The dev_t target device is a Nat. -/
structure dmabuf_feedback_tranche where
  target_device : Nat
  flags : Nat
  formats : List wsi_wl_format
deriving DecidableEq, Repr

/-- dmabuf_feedback_tranche_init: memset to zero plus an empty formats
vector. -/
def dmabuf_feedback_tranche_initial : dmabuf_feedback_tranche :=
  { target_device := 0, flags := 0, formats := [] }

/-- struct dmabuf_feedback. -/
structure dmabuf_feedback where
  main_device : Nat
  format_table : dmabuf_feedback_format_table
  tranches : List dmabuf_feedback_tranche
  pending_tranche : dmabuf_feedback_tranche
deriving DecidableEq, Repr

/-- dmabuf_feedback_init: zeroed feedback with empty tranche array, a fresh
empty pending tranche and a zeroed format table. -/
def dmabuf_feedback_initial : dmabuf_feedback :=
  { main_device := 0
  , format_table := dmabuf_feedback_format_table_initial
  , tranches := []
  , pending_tranche := dmabuf_feedback_tranche_initial }

/-! ## Swapchain state

Fields of struct wsi_wl_swapchain that the modelled operations read or
write.  The handles to protocol objects (wl_surface, wl_buffer), the
extent, and the drm/shm format codes only flow to the transport and are
not represented.  The frame callback handle is kept as an Option since
only its NULL-ness is observable in the modelled logic. -/

/-- struct wsi_wl_image: only the busy flag drives the modelled
acquire/present logic. -/
structure wsi_wl_image where
  busy : Bool
deriving DecidableEq, Repr

/-- struct wsi_wl_swapchain (the fields the modelled code touches). -/
structure wsi_wl_swapchain_state where
  vk_format : Nat
  suboptimal : Bool
  drm_modifiers : List Nat
  present_mode : Nat
  fifo_ready : Bool
  frame : Option Unit
  images : List wsi_wl_image
deriving DecidableEq, Repr

/-! ## Per-surface feedback state machine

struct wsi_wl_surface holds the committed feedback (dmabuf_feedback), the
feedback being accumulated (pending_dmabuf_feedback) and a back-reference
to its swapchain.  The feedback event listeners mutate this state; each
listener below is named after the handler it embeds, and the step function
plays the role of the listener vtable dispatch. -/

/-- The mutable per-surface state driven by feedback events. -/
structure wsi_wl_surface_state where
  chain : wsi_wl_swapchain_state
  pending_dmabuf_feedback : dmabuf_feedback
  dmabuf_feedback : dmabuf_feedback
deriving DecidableEq, Repr

/-- The feedback events a compositor can deliver to a surface feedback
object.  The format_table event carries the mmap outcome for the received
fd (size plus mapped records or MAP_FAILED). -/
inductive feedback_event where
  | format_table (size : Nat) (mem : table_data)
  | main_device (device : Nat)
  | tranche_target_device (device : Nat)
  | tranche_flags (flags : Nat)
  | tranche_formats (indices : List Nat)
  | tranche_done
  | done
deriving DecidableEq, Repr

/-- surface_dmabuf_feedback_format_table: store the mapping in the pending
feedback. -/
def surface_dmabuf_feedback_format_table (s : wsi_wl_surface_state)
    (size : Nat) (mem : table_data) : wsi_wl_surface_state :=
  { s with pending_dmabuf_feedback :=
      { s.pending_dmabuf_feedback with format_table := { size := size, data := mem } } }

/-- surface_dmabuf_feedback_main_device. -/
def surface_dmabuf_feedback_main_device (s : wsi_wl_surface_state)
    (device : Nat) : wsi_wl_surface_state :=
  { s with pending_dmabuf_feedback :=
      { s.pending_dmabuf_feedback with main_device := device } }

/-- surface_dmabuf_feedback_tranche_target_device. -/
def surface_dmabuf_feedback_tranche_target_device (s : wsi_wl_surface_state)
    (device : Nat) : wsi_wl_surface_state :=
  { s with pending_dmabuf_feedback :=
      { s.pending_dmabuf_feedback with pending_tranche :=
        { s.pending_dmabuf_feedback.pending_tranche with target_device := device } } }

/-- surface_dmabuf_feedback_tranche_flags. -/
def surface_dmabuf_feedback_tranche_flags (s : wsi_wl_surface_state)
    (flags : Nat) : wsi_wl_surface_state :=
  { s with pending_dmabuf_feedback :=
      { s.pending_dmabuf_feedback with pending_tranche :=
        { s.pending_dmabuf_feedback.pending_tranche with flags := flags } } }

/-- The loop body of the tranche_formats handlers: resolve each 16-bit
index through the table records and feed the (format, modifier) pair to
the catalog.  The source dereferences data at the index without a bounds
check; reads that fall outside the list of records backing the mapping are
modelled as adding nothing (see the dereference-set definitions used for
the safety claim). -/
def tranche_formats_resolve (renderable : Nat → Bool)
    (entries : List (Nat × Nat)) (formats : List wsi_wl_format)
    (indices : List Nat) : List wsi_wl_format :=
  indices.foldl
    (fun fs i =>
      match entries[i]? with
      | some (format, modifier) =>
        wsi_wl_display_add_drm_format_modifier renderable fs format modifier
      | none => fs)
    formats

/-- surface_dmabuf_feedback_tranche_formats: when the pending feedback has
no table (NULL data), steal the committed feedback's table and reset the
committed slot to zero; then, unless the table in use is MAP_FAILED or
NULL, resolve every index and add it to the pending tranche's formats. -/
def surface_dmabuf_feedback_tranche_formats (renderable : Nat → Bool)
    (s : wsi_wl_surface_state) (indices : List Nat) : wsi_wl_surface_state :=
  let s2 :=
    if s.pending_dmabuf_feedback.format_table.data = table_data.null then
      { s with
        pending_dmabuf_feedback :=
          { s.pending_dmabuf_feedback with format_table := s.dmabuf_feedback.format_table }
        dmabuf_feedback :=
          { s.dmabuf_feedback with format_table := dmabuf_feedback_format_table_initial } }
    else s
  match s2.pending_dmabuf_feedback.format_table.data with
  | table_data.mapped entries =>
    { s2 with pending_dmabuf_feedback :=
        { s2.pending_dmabuf_feedback with pending_tranche :=
          { s2.pending_dmabuf_feedback.pending_tranche with formats :=
              (tranche_formats_resolve renderable entries
                s2.pending_dmabuf_feedback.pending_tranche.formats indices) } } }
  | _ => s2

/-- surface_dmabuf_feedback_tranche_done: append the pending tranche to the
tranche array and reinitialize the pending tranche. -/
def surface_dmabuf_feedback_tranche_done (s : wsi_wl_surface_state) :
    wsi_wl_surface_state :=
  { s with pending_dmabuf_feedback :=
      { s.pending_dmabuf_feedback with
        tranches := s.pending_dmabuf_feedback.tranches ++
          [s.pending_dmabuf_feedback.pending_tranche]
        pending_tranche := dmabuf_feedback_tranche_initial } }

/-- sets_of_modifiers_are_the_same: equal counts, and every modifier of A
occurs somewhere in B. -/
def sets_of_modifiers_are_the_same (modifiers_A modifiers_B : List Nat) : Bool :=
  if modifiers_A.length ≠ modifiers_B.length then false
  else modifiers_A.all (fun a => modifiers_B.any (fun b => a == b))

/-- pick_format_from_surface_dmabuf_feedback: NULL when the main device was
never advertised; otherwise the entry for vk_format in the first tranche
(in compositor preference order) that contains it. -/
def pick_format_from_surface_dmabuf_feedback (feedback : dmabuf_feedback)
    (vk_format : Nat) : Option wsi_wl_format :=
  if feedback.main_device = 0 then none
  else feedback.tranches.findSome? (fun tranche => find_format tranche.formats vk_format)

/-- surface_dmabuf_feedback_done: free the committed feedback, commit the
pending feedback wholesale in its place, start a fresh empty pending
feedback, and mark the swapchain suboptimal when the entry for its format
in the newly committed feedback carries a different modifier set than the
one recorded at the last allocation. -/
def surface_dmabuf_feedback_done (s : wsi_wl_surface_state) :
    wsi_wl_surface_state :=
  let committed := s.pending_dmabuf_feedback
  let suboptimal2 :=
    match pick_format_from_surface_dmabuf_feedback committed s.chain.vk_format with
    | some f =>
      if sets_of_modifiers_are_the_same f.modifiers s.chain.drm_modifiers then
        s.chain.suboptimal
      else true
    | none => s.chain.suboptimal
  { chain := { s.chain with suboptimal := suboptimal2 }
  , pending_dmabuf_feedback := dmabuf_feedback_initial
  , dmabuf_feedback := committed }

/-- Listener dispatch: one feedback event mutates the surface state through
the handler registered for it. -/
def surface_feedback_step (renderable : Nat → Bool)
    (s : wsi_wl_surface_state) : feedback_event → wsi_wl_surface_state
  | feedback_event.format_table size mem =>
    surface_dmabuf_feedback_format_table s size mem
  | feedback_event.main_device device =>
    surface_dmabuf_feedback_main_device s device
  | feedback_event.tranche_target_device device =>
    surface_dmabuf_feedback_tranche_target_device s device
  | feedback_event.tranche_flags flags =>
    surface_dmabuf_feedback_tranche_flags s flags
  | feedback_event.tranche_formats indices =>
    surface_dmabuf_feedback_tranche_formats renderable s indices
  | feedback_event.tranche_done =>
    surface_dmabuf_feedback_tranche_done s
  | feedback_event.done =>
    surface_dmabuf_feedback_done s

/-- Deliver a whole event sequence. -/
def surface_feedback_run (renderable : Nat → Bool)
    (s : wsi_wl_surface_state) : List feedback_event → wsi_wl_surface_state
  | [] => s
  | e :: tr => surface_feedback_run renderable (surface_feedback_step renderable s e) tr

/-- The per-surface state right after wsi_wl_surface_bind_to_dmabuf_feedback:
both feedback instances freshly initialized. -/
def surface_feedback_bound (chain : wsi_wl_swapchain_state) : wsi_wl_surface_state :=
  { chain := chain
  , pending_dmabuf_feedback := dmabuf_feedback_initial
  , dmabuf_feedback := dmabuf_feedback_initial }

/-- The tranche snapshots closed by tranche_done events along a trace: at
each tranche_done, the value of the pending tranche at that moment (the
value the handler appends to the tranche array). -/
def closed_tranche_snapshots (renderable : Nat → Bool)
    (s : wsi_wl_surface_state) : List feedback_event → List dmabuf_feedback_tranche
  | [] => []
  | e :: tr =>
    (match e with
     | feedback_event.tranche_done => [s.pending_dmabuf_feedback.pending_tranche]
     | _ => []) ++
    closed_tranche_snapshots renderable (surface_feedback_step renderable s e) tr

/-! ## Unchecked format-table indexing (safety analysis)

The records of a mapped table are 16 bytes each (u32 format, u32 padding,
u64 modifier), so the record at index i occupies bytes 16*i .. 16*i+15 of
the mapping.  An index is within the mapped region exactly when
16*(i+1) <= size. -/

/-- Whether every index of a tranche_formats event lies within the mapped
format-table region. -/
def tranche_formats_indices_in_bounds (table : dmabuf_feedback_format_table)
    (indices : List Nat) : Bool :=
  indices.all (fun i => 16 * (i + 1) ≤ table.size)

/-- The indices that surface_dmabuf_feedback_tranche_formats dereferences:
after the steal logic it reads data at every received index whenever the
table in use is mapped, without comparing the index against the table
size. -/
def surface_tranche_formats_dereferenced (s : wsi_wl_surface_state)
    (indices : List Nat) : List Nat :=
  let table :=
    if s.pending_dmabuf_feedback.format_table.data = table_data.null then
      s.dmabuf_feedback.format_table
    else s.pending_dmabuf_feedback.format_table
  match table.data with
  | table_data.mapped _ => indices
  | _ => []

/-- The indices that default_dmabuf_feedback_tranche_formats (the
connection-wide feedback path) dereferences: every received index whenever
the display's table is mapped, again with no bound check. -/
def default_tranche_formats_dereferenced (table : dmabuf_feedback_format_table)
    (indices : List Nat) : List Nat :=
  match table.data with
  | table_data.mapped _ => indices
  | _ => []

/-! ## Acquire (wsi_wl_swapchain_acquire_next_image)

Each pass of the acquire loop performs: dispatch pending events, scan for a
free image, check the deadline, prepare-read, ppoll, read events.  The
outcomes the environment produces for one pass are collected in an oracle
record; the whole call consumes a list of such records, one per pass.  A
call that exhausts its oracle while still looping is modelled as none
(still blocked). -/

/-- Outcome of wl_display_prepare_read_queue: 0, or -1 with an errno. -/
inductive prepare_read_outcome where
  | ok : prepare_read_outcome
  | err (errno : Nat) : prepare_read_outcome
deriving DecidableEq, Repr

/-- Outcome of ppoll: positive count, zero (timeout), or negative with an
errno. -/
inductive poll_outcome where
  | pos : poll_outcome
  | zero : poll_outcome
  | neg (errno : Nat) : poll_outcome
deriving DecidableEq, Repr

/-- Environment outcomes for one pass of the acquire loop.
images_after_dispatch is the busy array after
wl_display_dispatch_queue_pending ran the queued handlers (buffer release
handlers clear busy flags); suboptimal_set records whether a dispatched
feedback-done handler marked the swapchain suboptimal (the only write to
that flag, and it only ever sets it).  timed_out is the result of the
monotonic-clock deadline comparison for this pass. -/
structure acquire_pass_outcomes where
  dispatch_ok : Bool
  images_after_dispatch : List wsi_wl_image
  suboptimal_set : Bool
  timed_out : Bool
  prepare_read : prepare_read_outcome
  poll : poll_outcome
  read_events_ok : Bool
deriving DecidableEq, Repr

/-- The swapchain state after the dispatch step of one pass. -/
def acquire_dispatch_apply (chain : wsi_wl_swapchain_state)
    (ev : acquire_pass_outcomes) : wsi_wl_swapchain_state :=
  { chain with
    images := ev.images_after_dispatch
    suboptimal := chain.suboptimal || ev.suboptimal_set }

/-- The index-order scan for a non-busy image. -/
def find_free_image : List wsi_wl_image → Option Nat
  | [] => none
  | img :: rest =>
    if img.busy then (find_free_image rest).map (fun i => i + 1)
    else some 0

/-- Result of one pass of the acquire loop: either the call returns (with a
VkResult, the written image index if any, and the final swapchain state),
or the loop continues into the next pass. -/
inductive acquire_pass_result where
  | ret (res : Int) (index : Option Nat) (chain : wsi_wl_swapchain_state) :
      acquire_pass_result
  | again (chain : wsi_wl_swapchain_state) : acquire_pass_result
deriving DecidableEq, Repr

/-- One pass of the loop body of wsi_wl_swapchain_acquire_next_image. -/
def wsi_wl_swapchain_acquire_pass (chain : wsi_wl_swapchain_state)
    (ev : acquire_pass_outcomes) : acquire_pass_result :=
  if ev.dispatch_ok = false then
    acquire_pass_result.ret VK_ERROR_OUT_OF_DATE_KHR none chain
  else
    let chain2 := acquire_dispatch_apply chain ev
    match find_free_image chain2.images with
    | some i =>
      acquire_pass_result.ret
        (if chain2.suboptimal then VK_SUBOPTIMAL_KHR else VK_SUCCESS)
        (some i)
        { chain2 with images := chain2.images.set i { busy := true } }
    | none =>
      if ev.timed_out then
        acquire_pass_result.ret VK_NOT_READY none chain2
      else
        match ev.prepare_read with
        | prepare_read_outcome.err e =>
          if e = EAGAIN then acquire_pass_result.again chain2
          else acquire_pass_result.ret VK_ERROR_OUT_OF_DATE_KHR none chain2
        | prepare_read_outcome.ok =>
          match ev.poll with
          | poll_outcome.neg e =>
            if e = EINTR ∨ e = EAGAIN then acquire_pass_result.again chain2
            else acquire_pass_result.ret VK_ERROR_OUT_OF_DATE_KHR none chain2
          | poll_outcome.zero => acquire_pass_result.again chain2
          | poll_outcome.pos =>
            if ev.read_events_ok then acquire_pass_result.again chain2
            else acquire_pass_result.ret VK_ERROR_OUT_OF_DATE_KHR none chain2

/-- wsi_wl_swapchain_acquire_next_image: run loop passes until one returns;
none models a call still blocked when the oracle runs out. -/
def wsi_wl_swapchain_acquire_next_image (chain : wsi_wl_swapchain_state) :
    List acquire_pass_outcomes → Option (Int × Option Nat × wsi_wl_swapchain_state)
  | [] => none
  | ev :: rest =>
    match wsi_wl_swapchain_acquire_pass chain ev with
    | acquire_pass_result.ret res index chain2 => some (res, index, chain2)
    | acquire_pass_result.again chain2 =>
      wsi_wl_swapchain_acquire_next_image chain2 rest

/-! ## Present (wsi_wl_swapchain_queue_present and frame_handle_done) -/

/-- Outcome of one wl_display_dispatch_queue call inside the FIFO wait
loop: an error, or success together with whether the dispatched batch
contained the frame-completion callback (frame_handle_done, which clears
the frame handle and sets fifo_ready). -/
inductive dispatch_outcome where
  | err : dispatch_outcome
  | ok (frame_done : Bool) : dispatch_outcome
deriving DecidableEq, Repr

/-- frame_handle_done: clear the callback handle and mark fifo_ready. -/
def frame_handle_done (chain : wsi_wl_swapchain_state) : wsi_wl_swapchain_state :=
  { chain with frame := none, fifo_ready := true }

/-- Effect of one successful dispatch on the swapchain state inside the
FIFO wait loop. -/
def present_dispatch_apply (chain : wsi_wl_swapchain_state) (frame_done : Bool) :
    wsi_wl_swapchain_state :=
  if frame_done then frame_handle_done chain else chain

/-- Result of the FIFO wait loop. -/
inductive fifo_wait_result where
  | blocked : fifo_wait_result
  | io_error (chain : wsi_wl_swapchain_state) : fifo_wait_result
  | ready (chain : wsi_wl_swapchain_state) : fifo_wait_result
deriving DecidableEq, Repr

/-- The while-not-fifo_ready dispatch loop of queue_present.  blocked
models the loop still spinning when the oracle runs out (the wait has no
timeout). -/
def queue_present_fifo_wait (chain : wsi_wl_swapchain_state) :
    List dispatch_outcome → fifo_wait_result
  | [] =>
    if chain.fifo_ready then fifo_wait_result.ready chain
    else fifo_wait_result.blocked
  | d :: rest =>
    if chain.fifo_ready then fifo_wait_result.ready chain
    else
      match d with
      | dispatch_outcome.err => fifo_wait_result.io_error chain
      | dispatch_outcome.ok frame_done =>
        queue_present_fifo_wait (present_dispatch_apply chain frame_done) rest

/-- Result of a queue_present call. -/
inductive present_result where
  | blocked : present_result
  | returned (res : Int) (chain : wsi_wl_swapchain_state) : present_result
deriving DecidableEq, Repr

/-- wsi_wl_swapchain_queue_present: under FIFO, block dispatching until
fifo_ready; then attach the buffer and submit damage (transport calls, not
represented), and for FIFO register a fresh frame callback and clear
fifo_ready; finally mark the image busy and commit.  The memcpy into the
host-visible staging region for the SHM_MEMCPY buffer type happens before
all of this and does not touch the modelled state. -/
def wsi_wl_swapchain_queue_present (chain : wsi_wl_swapchain_state)
    (image_index : Nat) (dispatches : List dispatch_outcome) : present_result :=
  if chain.present_mode = VK_PRESENT_MODE_FIFO_KHR then
    match queue_present_fifo_wait chain dispatches with
    | fifo_wait_result.blocked => present_result.blocked
    | fifo_wait_result.io_error chain2 =>
      present_result.returned VK_ERROR_OUT_OF_DATE_KHR chain2
    | fifo_wait_result.ready chain2 =>
      let chain3 := { chain2 with frame := some (), fifo_ready := false }
      present_result.returned VK_SUCCESS
        { chain3 with images := chain3.images.set image_index { busy := true } }
  else
    present_result.returned VK_SUCCESS
      { chain with images := chain.images.set image_index { busy := true } }

/-! ## Swapchain creation and the support query -/

/-- The swapchain state produced by wsi_wl_surface_create_swapchain: the
chain is vk_zalloc-ed (so suboptimal is false and the frame callback is
NULL), fifo_ready is set to true, the format, present mode and modifier
list are recorded, and every image ends with busy = false. -/
def wsi_wl_surface_create_swapchain (num_images : Nat) (vk_format : Nat)
    (present_mode : Nat) (drm_modifiers : List Nat) : wsi_wl_swapchain_state :=
  { vk_format := vk_format
  , suboptimal := false
  , drm_modifiers := drm_modifiers
  , present_mode := present_mode
  , fifo_ready := true
  , frame := none
  , images := List.replicate num_images { busy := false } }

/-- wsi_wl_surface_get_support: writes true through pSupported and returns
VK_SUCCESS, ignoring the surface, the device and the queue family index.
The result pair is (return value, value written through pSupported). -/
def wsi_wl_surface_get_support (surface : Nat) (wsi_device : Nat)
    (queueFamilyIndex : Nat) : Int × Bool :=
  (VK_SUCCESS, true)

/-! ## Concrete fixtures for the evaluation theorems -/

/-- A small concrete swapchain used by the concrete evaluation theorems:
format 5 was allocated with the modifier set containing only 2. -/
def chain_fx : wsi_wl_swapchain_state :=
  { vk_format := 5
  , suboptimal := false
  , drm_modifiers := [2]
  , present_mode := VK_PRESENT_MODE_FIFO_KHR
  , fifo_ready := false
  , frame := some ()
  , images := [{ busy := true }] }

/-- A catalog entry for format 5 whose modifier set contains only 1. -/
def fmt_fx : wsi_wl_format := { vk_format := 5, flags := 1, modifiers := [1] }

/-- A surface whose accumulated pending feedback has a tranche advertising
format 5 with modifier set containing only 1, but whose main device was
never advertised (main_device still 0). -/
def surface_fx_nomain : wsi_wl_surface_state :=
  { chain := chain_fx
  , pending_dmabuf_feedback :=
      { main_device := 0
      , format_table := dmabuf_feedback_format_table_initial
      , tranches := [{ target_device := 0, flags := 0, formats := [fmt_fx] }]
      , pending_tranche := dmabuf_feedback_tranche_initial }
  , dmabuf_feedback := dmabuf_feedback_initial }

/-- Same surface but with the main device advertised. -/
def surface_fx_main : wsi_wl_surface_state :=
  { surface_fx_nomain with pending_dmabuf_feedback :=
      { surface_fx_nomain.pending_dmabuf_feedback with main_device := 3 } }

/-- A surface in a fresh cycle (pending table NULL) whose committed
feedback still holds a mapped one-record format table. -/
def surface_fx_steal : wsi_wl_surface_state :=
  { chain := chain_fx
  , pending_dmabuf_feedback := dmabuf_feedback_initial
  , dmabuf_feedback :=
      { dmabuf_feedback_initial with format_table :=
          { size := 16, data := table_data.mapped [(DRM_FORMAT_XRGB8888, 7)] } } }

/-- A mapped format table of 16 bytes: exactly one 16-byte record. -/
def table_fx : dmabuf_feedback_format_table :=
  { size := 16, data := table_data.mapped [(0, 0)] }

/-- A surface whose pending feedback carries the one-record table. -/
def surface_fx_table : wsi_wl_surface_state :=
  { chain := chain_fx
  , pending_dmabuf_feedback :=
      { dmabuf_feedback_initial with format_table := table_fx }
  , dmabuf_feedback := dmabuf_feedback_initial }

/-- One acquire pass whose dispatch succeeds, frees no image and does not
reach the deadline, with the given prepare-read / poll / read outcomes. -/
def acquire_ev_fx (pr : prepare_read_outcome) (pl : poll_outcome) (ro : Bool) :
    acquire_pass_outcomes :=
  { dispatch_ok := true
  , images_after_dispatch := [{ busy := true }]
  , suboptimal_set := false
  , timed_out := false
  , prepare_read := pr
  , poll := pl
  , read_events_ok := ro }

/-- One acquire pass whose dispatch delivered a release for the second
image of a two-image swapchain. -/
def acquire_ev_free : acquire_pass_outcomes :=
  { dispatch_ok := true
  , images_after_dispatch := [{ busy := true }, { busy := false }]
  , suboptimal_set := false
  , timed_out := false
  , prepare_read := prepare_read_outcome.ok
  , poll := poll_outcome.pos
  , read_events_ok := true }

/-- One acquire pass on a freshly created four-image swapchain: there are
no queued events, so dispatch leaves all images free and the suboptimal
flag untouched. -/
def acquire_ev_fresh : acquire_pass_outcomes :=
  { dispatch_ok := true
  , images_after_dispatch := List.replicate 4 { busy := false }
  , suboptimal_set := false
  , timed_out := false
  , prepare_read := prepare_read_outcome.ok
  , poll := poll_outcome.pos
  , read_events_ok := true }

/-- The freshly created four-image FIFO swapchain of format 5 used by the
creation witness. -/
def chain_fresh : wsi_wl_swapchain_state :=
  wsi_wl_surface_create_swapchain 4 5 VK_PRESENT_MODE_FIFO_KHR [2]

/-! ## General lemmas about the scan for a free image -/

theorem find_free_image_spec (images : List wsi_wl_image) (i : Nat)
    (h : find_free_image images = some i) :
    (∃ img, images[i]? = some img ∧ img.busy = false) ∧
    (∀ j, j < i → ∀ img, images[j]? = some img → img.busy = true) := by
  induction images generalizing i with
  | nil => simp [find_free_image] at h
  | cons a rest ih =>
    by_cases hb : a.busy
    · simp only [find_free_image, hb, if_true] at h
      rcases Option.map_eq_some'.mp h with ⟨i0, hi0, hii⟩
      subst hii
      refine ⟨?_, ?_⟩
      · obtain ⟨img, h1, h2⟩ := (ih i0 hi0).1
        exact ⟨img, by simpa using h1, h2⟩
      · intro j hj img hget
        cases j with
        | zero =>
          simp only [List.getElem?_cons_zero, Option.some.injEq] at hget
          subst hget; exact hb
        | succ j0 =>
          exact (ih i0 hi0).2 j0 (by omega) img (by simpa using hget)
    · rw [show find_free_image (a :: rest) =
          if a.busy then (find_free_image rest).map (fun i => i + 1) else some 0
          from rfl, if_neg hb] at h
      have h0 := Option.some.inj h
      subst h0
      refine ⟨⟨a, by simp, by simpa using hb⟩, ?_⟩
      intro j hj; omega

theorem find_free_image_isSome (images : List wsi_wl_image)
    (h : ∃ img ∈ images, img.busy = false) :
    (find_free_image images).isSome := by
  induction images with
  | nil => simp at h
  | cons a rest ih =>
    rcases h with ⟨img, hmem, hbusy⟩
    rcases List.mem_cons.mp hmem with rfl | hmem2
    · simp [find_free_image, hbusy]
    · by_cases hb : a.busy
      · have := ih ⟨img, hmem2, hbusy⟩
        simp only [find_free_image, hb, if_true]
        rcases Option.isSome_iff_exists.mp this with ⟨i0, hi0⟩
        simp [hi0]
      · simp [find_free_image, hb]

/-! ## sets_of_modifiers_are_the_same is set equality on duplicate-free
vectors -/

theorem sets_of_modifiers_iff_toFinset (A B : List Nat)
    (hA : A.Nodup) (hB : B.Nodup) :
    sets_of_modifiers_are_the_same A B = true ↔ A.toFinset = B.toFinset := by
  unfold sets_of_modifiers_are_the_same
  by_cases hlen : A.length = B.length
  · rw [if_neg (not_not_intro hlen)]
    constructor
    · intro hall
      have hsub : A.toFinset ⊆ B.toFinset := by
        intro x hx
        rw [List.mem_toFinset] at hx ⊢
        have := List.all_eq_true.mp hall x hx
        rcases List.any_eq_true.mp this with ⟨b, hbmem, hbeq⟩
        rw [beq_iff_eq] at hbeq
        exact hbeq ▸ hbmem
      have hcard : B.toFinset.card ≤ A.toFinset.card := by
        rw [List.toFinset_card_of_nodup hA, List.toFinset_card_of_nodup hB]
        omega
      exact Finset.eq_of_subset_of_card_le hsub hcard
    · intro hfin
      rw [List.all_eq_true]
      intro x hx
      rw [List.any_eq_true]
      refine ⟨x, ?_, by simp⟩
      have : x ∈ A.toFinset := List.mem_toFinset.mpr hx
      rw [hfin] at this
      exact List.mem_toFinset.mp this
  · rw [if_pos hlen]
    constructor
    · intro h; exact absurd h (by simp)
    · intro hfin
      exfalso
      apply hlen
      rw [← List.toFinset_card_of_nodup hA, ← List.toFinset_card_of_nodup hB, hfin]

/-! ## Frame lemmas for the feedback machine -/

theorem tranche_formats_current_fields (renderable : Nat → Bool)
    (s : wsi_wl_surface_state) (indices : List Nat) :
    (surface_dmabuf_feedback_tranche_formats renderable s indices).dmabuf_feedback.main_device =
      s.dmabuf_feedback.main_device ∧
    (surface_dmabuf_feedback_tranche_formats renderable s indices).dmabuf_feedback.tranches =
      s.dmabuf_feedback.tranches ∧
    (surface_dmabuf_feedback_tranche_formats renderable s indices).dmabuf_feedback.pending_tranche =
      s.dmabuf_feedback.pending_tranche := by
  unfold surface_dmabuf_feedback_tranche_formats
  by_cases h : s.pending_dmabuf_feedback.format_table.data = table_data.null
  · rw [if_pos h]
    rcases hd : s.dmabuf_feedback.format_table.data with _ | _ | entries <;> simp [hd]
  · rw [if_neg h]
    rcases hd : s.pending_dmabuf_feedback.format_table.data with _ | _ | entries <;> simp [hd]

theorem tranche_formats_pending_tranches (renderable : Nat → Bool)
    (s : wsi_wl_surface_state) (indices : List Nat) :
    (surface_dmabuf_feedback_tranche_formats renderable s indices).pending_dmabuf_feedback.tranches =
      s.pending_dmabuf_feedback.tranches := by
  unfold surface_dmabuf_feedback_tranche_formats
  by_cases h : s.pending_dmabuf_feedback.format_table.data = table_data.null
  · rw [if_pos h]
    rcases hd : s.dmabuf_feedback.format_table.data with _ | _ | entries <;> simp [hd]
  · rw [if_neg h]
    rcases hd : s.pending_dmabuf_feedback.format_table.data with _ | _ | entries <;> simp [hd]

/-- Every tranche visible in the committed feedback after a trace was, at
some tranche_done event of the trace, exactly the completed pending
tranche closed by that event. -/
theorem run_current_tranches_closed (renderable : Nat → Bool)
    (tr : List feedback_event) :
    ∀ (s : wsi_wl_surface_state) (L : List dmabuf_feedback_tranche),
      (∀ t ∈ s.dmabuf_feedback.tranches, t ∈ L) →
      (∀ t ∈ s.pending_dmabuf_feedback.tranches, t ∈ L) →
      ∀ t ∈ (surface_feedback_run renderable s tr).dmabuf_feedback.tranches,
        t ∈ L ++ closed_tranche_snapshots renderable s tr := by
  induction tr with
  | nil =>
    intro s L h1 _ t ht
    simpa [surface_feedback_run, closed_tranche_snapshots] using h1 t ht
  | cons e rest ih =>
    intro s L h1 h2 t ht
    rw [show surface_feedback_run renderable s (e :: rest) =
        surface_feedback_run renderable (surface_feedback_step renderable s e) rest
        from rfl] at ht
    cases e with
    | tranche_done =>
      have hstep := ih (surface_feedback_step renderable s feedback_event.tranche_done)
        (L ++ [s.pending_dmabuf_feedback.pending_tranche]) ?_ ?_ t ht
      · rw [show closed_tranche_snapshots renderable s (feedback_event.tranche_done :: rest) =
            [s.pending_dmabuf_feedback.pending_tranche] ++
              closed_tranche_snapshots renderable
                (surface_feedback_step renderable s feedback_event.tranche_done) rest
            from rfl]
        simpa [List.append_assoc] using hstep
      · intro t2 ht2
        exact List.mem_append_left _ (h1 t2 ht2)
      · intro t2 ht2
        simp only [surface_feedback_step, surface_dmabuf_feedback_tranche_done,
          List.mem_append] at ht2
        rcases ht2 with ht2 | ht2
        · exact List.mem_append_left _ (h2 t2 ht2)
        · simp only [List.mem_singleton] at ht2
          subst ht2
          exact List.mem_append_right _ (by simp)
    | done =>
      have hstep := ih (surface_feedback_step renderable s feedback_event.done) L ?_ ?_ t ht
      · simpa [closed_tranche_snapshots] using hstep
      · intro t2 ht2
        exact h2 t2 (by simpa [surface_feedback_step, surface_dmabuf_feedback_done] using ht2)
      · intro t2 ht2
        simp [surface_feedback_step, surface_dmabuf_feedback_done,
          dmabuf_feedback_initial] at ht2
    | format_table size mem =>
      have hstep := ih _ L ?_ ?_ t ht
      · simpa [closed_tranche_snapshots] using hstep
      · intro t2 ht2
        exact h1 t2 (by simpa [surface_feedback_step, surface_dmabuf_feedback_format_table] using ht2)
      · intro t2 ht2
        exact h2 t2 (by simpa [surface_feedback_step, surface_dmabuf_feedback_format_table] using ht2)
    | main_device device =>
      have hstep := ih _ L ?_ ?_ t ht
      · simpa [closed_tranche_snapshots] using hstep
      · intro t2 ht2
        exact h1 t2 (by simpa [surface_feedback_step, surface_dmabuf_feedback_main_device] using ht2)
      · intro t2 ht2
        exact h2 t2 (by simpa [surface_feedback_step, surface_dmabuf_feedback_main_device] using ht2)
    | tranche_target_device device =>
      have hstep := ih _ L ?_ ?_ t ht
      · simpa [closed_tranche_snapshots] using hstep
      · intro t2 ht2
        exact h1 t2 (by simpa [surface_feedback_step,
          surface_dmabuf_feedback_tranche_target_device] using ht2)
      · intro t2 ht2
        exact h2 t2 (by simpa [surface_feedback_step,
          surface_dmabuf_feedback_tranche_target_device] using ht2)
    | tranche_flags flags =>
      have hstep := ih _ L ?_ ?_ t ht
      · simpa [closed_tranche_snapshots] using hstep
      · intro t2 ht2
        exact h1 t2 (by simpa [surface_feedback_step,
          surface_dmabuf_feedback_tranche_flags] using ht2)
      · intro t2 ht2
        exact h2 t2 (by simpa [surface_feedback_step,
          surface_dmabuf_feedback_tranche_flags] using ht2)
    | tranche_formats indices =>
      have hstep := ih _ L ?_ ?_ t ht
      · simpa [closed_tranche_snapshots] using hstep
      · intro t2 ht2
        rw [show surface_feedback_step renderable s (feedback_event.tranche_formats indices) =
            surface_dmabuf_feedback_tranche_formats renderable s indices from rfl,
          (tranche_formats_current_fields renderable s indices).2.1] at ht2
        exact h1 t2 ht2
      · intro t2 ht2
        rw [show surface_feedback_step renderable s (feedback_event.tranche_formats indices) =
            surface_dmabuf_feedback_tranche_formats renderable s indices from rfl,
          tranche_formats_pending_tranches renderable s indices] at ht2
        exact h2 t2 ht2

/-! ## Claim C1: feedback commit atomicity -/

/-- C1 counterexample: the claim says the committed state changes only
when the done event fires, but a tranche_formats event arriving in a cycle
without a format-table event steals the committed feedback's table and
resets the committed table slot to zero — the committed state changes on a
non-done event.  Concretely: after a cycle consisting of a format-table
event and done, delivering tranche_formats (with any index list, here the
empty one) mutates the committed feedback. -/
theorem feedback_commit_atomicity_counterexample :
    (feedback_event.tranche_formats [] ≠ feedback_event.done) ∧
    (surface_feedback_step (fun _ => true)
        (surface_feedback_run (fun _ => true) (surface_feedback_bound chain_fx)
          [feedback_event.format_table 16 (table_data.mapped [(7, 9)]),
           feedback_event.done])
        (feedback_event.tranche_formats [])).dmabuf_feedback ≠
      (surface_feedback_run (fun _ => true) (surface_feedback_bound chain_fx)
        [feedback_event.format_table 16 (table_data.mapped [(7, 9)]),
         feedback_event.done]).dmabuf_feedback := by
  decide

/-- C1 (amended): along any event trace from the freshly bound surface
state, (a) a non-done event leaves the committed feedback's main device,
tranche list and pending-tranche slot unchanged (only the committed
format-table slot can be reset, by the steal of a tranche_formats event);
(b) the done event replaces the committed feedback wholesale by the
accumulated pending feedback and creates a fresh empty pending feedback;
(c) every tranche in the committed tranche list is one that was closed by
a tranche_done event — a tranche whose tranche_done was not received is
never visible in the committed state. -/
theorem feedback_commit_atomicity (renderable : Nat → Bool)
    (chain : wsi_wl_swapchain_state) (tr : List feedback_event)
    (e : feedback_event) :
    (e ≠ feedback_event.done →
      ((surface_feedback_step renderable
          (surface_feedback_run renderable (surface_feedback_bound chain) tr)
          e).dmabuf_feedback.main_device =
        (surface_feedback_run renderable (surface_feedback_bound chain) tr).dmabuf_feedback.main_device ∧
       (surface_feedback_step renderable
          (surface_feedback_run renderable (surface_feedback_bound chain) tr)
          e).dmabuf_feedback.tranches =
        (surface_feedback_run renderable (surface_feedback_bound chain) tr).dmabuf_feedback.tranches ∧
       (surface_feedback_step renderable
          (surface_feedback_run renderable (surface_feedback_bound chain) tr)
          e).dmabuf_feedback.pending_tranche =
        (surface_feedback_run renderable (surface_feedback_bound chain) tr).dmabuf_feedback.pending_tranche)) ∧
    ((surface_feedback_step renderable
        (surface_feedback_run renderable (surface_feedback_bound chain) tr)
        feedback_event.done).dmabuf_feedback =
      (surface_feedback_run renderable (surface_feedback_bound chain) tr).pending_dmabuf_feedback ∧
     (surface_feedback_step renderable
        (surface_feedback_run renderable (surface_feedback_bound chain) tr)
        feedback_event.done).pending_dmabuf_feedback = dmabuf_feedback_initial) ∧
    (∀ t ∈ (surface_feedback_run renderable (surface_feedback_bound chain) tr).dmabuf_feedback.tranches,
      t ∈ closed_tranche_snapshots renderable (surface_feedback_bound chain) tr) := by
  refine ⟨?_, ⟨rfl, rfl⟩, ?_⟩
  · intro hne
    cases e with
    | done => exact absurd rfl hne
    | format_table size mem => exact ⟨rfl, rfl, rfl⟩
    | main_device device => exact ⟨rfl, rfl, rfl⟩
    | tranche_target_device device => exact ⟨rfl, rfl, rfl⟩
    | tranche_flags flags => exact ⟨rfl, rfl, rfl⟩
    | tranche_done => exact ⟨rfl, rfl, rfl⟩
    | tranche_formats indices =>
      exact tranche_formats_current_fields renderable _ indices
  · intro t ht
    have := run_current_tranches_closed renderable tr (surface_feedback_bound chain) []
      (by simp [surface_feedback_bound, dmabuf_feedback_initial])
      (by simp [surface_feedback_bound, dmabuf_feedback_initial]) t ht
    simpa using this

/-- C1 witness: the amended theorem applied to a concrete trace and a
concrete non-done event. -/
theorem feedback_commit_atomicity_witness :
    ((surface_feedback_step (fun _ => true)
        (surface_feedback_run (fun _ => true) (surface_feedback_bound chain_fx)
          [feedback_event.tranche_done, feedback_event.done])
        (feedback_event.main_device 3)).dmabuf_feedback.tranches =
      (surface_feedback_run (fun _ => true) (surface_feedback_bound chain_fx)
        [feedback_event.tranche_done, feedback_event.done]).dmabuf_feedback.tranches) ∧
    (dmabuf_feedback_tranche_initial ∈
      closed_tranche_snapshots (fun _ => true) (surface_feedback_bound chain_fx)
        [feedback_event.tranche_done, feedback_event.done]) := by
  have h := feedback_commit_atomicity (fun _ => true) chain_fx
    [feedback_event.tranche_done, feedback_event.done] (feedback_event.main_device 3)
  exact ⟨(h.1 (by decide)).2.1, h.2.2 dmabuf_feedback_tranche_initial (by decide)⟩

/-! ## Claim C2: the suboptimal trigger on feedback commit -/

/-- C2 counterexample: the claim does not require the committed feedback's
main device to have been advertised.  With main_device still 0, the first
tranche of the newly committed feedback contains the swapchain's format 5
with modifier set containing only 1, which differs from the allocated
modifier set containing only 2, yet the commit leaves suboptimal false. -/
theorem feedback_done_suboptimal_counterexample :
    (surface_fx_nomain.pending_dmabuf_feedback.tranches.findSome?
        (fun tranche => find_format tranche.formats surface_fx_nomain.chain.vk_format) =
      some fmt_fx) ∧
    fmt_fx.modifiers.toFinset ≠ surface_fx_nomain.chain.drm_modifiers.toFinset ∧
    surface_fx_nomain.chain.suboptimal = false ∧
    (surface_feedback_step (fun _ => true) surface_fx_nomain
        feedback_event.done).chain.suboptimal = false := by
  decide

/-- C2 (amended): on feedback commit, when the pick through the newly
committed feedback (which requires an advertised main device and takes the
entry for the swapchain's format from the first tranche containing it)
yields an entry, and the entry's modifier list and the modifier list
recorded at the last allocation are duplicate-free (as every modifier
vector built by the catalog is), then: if the two modifier sets differ the
suboptimal flag becomes true, and if they are equal as sets the flag is
left unchanged. -/
theorem feedback_done_suboptimal_trigger (renderable : Nat → Bool)
    (s : wsi_wl_surface_state) (f : wsi_wl_format)
    (hpick : pick_format_from_surface_dmabuf_feedback s.pending_dmabuf_feedback
        s.chain.vk_format = some f)
    (hA : f.modifiers.Nodup) (hB : s.chain.drm_modifiers.Nodup) :
    (f.modifiers.toFinset ≠ s.chain.drm_modifiers.toFinset →
      (surface_feedback_step renderable s feedback_event.done).chain.suboptimal = true) ∧
    (f.modifiers.toFinset = s.chain.drm_modifiers.toFinset →
      (surface_feedback_step renderable s feedback_event.done).chain.suboptimal =
        s.chain.suboptimal) := by
  have hstep : (surface_feedback_step renderable s feedback_event.done).chain.suboptimal =
      (if sets_of_modifiers_are_the_same f.modifiers s.chain.drm_modifiers then
        s.chain.suboptimal else true) := by
    simp [surface_feedback_step, surface_dmabuf_feedback_done, hpick]
  constructor
  · intro hne
    rw [hstep, if_neg]
    intro hsame
    exact hne ((sets_of_modifiers_iff_toFinset f.modifiers s.chain.drm_modifiers hA hB).mp hsame)
  · intro heq
    rw [hstep, if_pos]
    exact (sets_of_modifiers_iff_toFinset f.modifiers s.chain.drm_modifiers hA hB).mpr heq

/-- C2 witness: with the main device advertised, committing the same
feedback as in the counterexample does set suboptimal. -/
theorem feedback_done_suboptimal_trigger_witness :
    (surface_feedback_step (fun _ => true) surface_fx_main
        feedback_event.done).chain.suboptimal = true :=
  (feedback_done_suboptimal_trigger (fun _ => true) surface_fx_main fmt_fx
    (by decide) (by decide) (by decide)).1 (by decide)

/-! ## Claim C3: stealing the committed format table -/

/-- C3: when a tranche_formats event arrives while the pending feedback has
no table (NULL data) and the committed feedback holds a mapped table, the
pending feedback takes over the committed table, the committed table slot
is reset to the zeroed state, and the indices are resolved through the
stolen table's records into the pending tranche's formats. -/
theorem tranche_formats_table_steal (renderable : Nat → Bool)
    (s : wsi_wl_surface_state) (indices : List Nat)
    (entries : List (Nat × Nat)) (size : Nat)
    (hpend : s.pending_dmabuf_feedback.format_table.data = table_data.null)
    (hcur : s.dmabuf_feedback.format_table =
      { size := size, data := table_data.mapped entries }) :
    (surface_feedback_step renderable s
        (feedback_event.tranche_formats indices)).pending_dmabuf_feedback.format_table =
      { size := size, data := table_data.mapped entries } ∧
    (surface_feedback_step renderable s
        (feedback_event.tranche_formats indices)).dmabuf_feedback.format_table =
      dmabuf_feedback_format_table_initial ∧
    (surface_feedback_step renderable s
        (feedback_event.tranche_formats indices)).pending_dmabuf_feedback.pending_tranche.formats =
      tranche_formats_resolve renderable entries
        s.pending_dmabuf_feedback.pending_tranche.formats indices := by
  rw [show surface_feedback_step renderable s (feedback_event.tranche_formats indices) =
      surface_dmabuf_feedback_tranche_formats renderable s indices from rfl]
  unfold surface_dmabuf_feedback_tranche_formats
  rw [if_pos hpend, hcur]
  exact ⟨rfl, rfl, rfl⟩

/-- C3 witness: on the concrete fixture the steal happens and index 0
resolves through the stolen table to DRM XRGB8888, populating the pending
tranche with the corresponding Vulkan formats (a non-empty catalog). -/
theorem tranche_formats_table_steal_witness :
    ((surface_feedback_step (fun _ => true) surface_fx_steal
        (feedback_event.tranche_formats [0])).pending_dmabuf_feedback.format_table =
      { size := 16, data := table_data.mapped [(DRM_FORMAT_XRGB8888, 7)] } ∧
     (surface_feedback_step (fun _ => true) surface_fx_steal
        (feedback_event.tranche_formats [0])).dmabuf_feedback.format_table =
      dmabuf_feedback_format_table_initial ∧
     (surface_feedback_step (fun _ => true) surface_fx_steal
        (feedback_event.tranche_formats [0])).pending_dmabuf_feedback.pending_tranche.formats =
      tranche_formats_resolve (fun _ => true) [(DRM_FORMAT_XRGB8888, 7)]
        surface_fx_steal.pending_dmabuf_feedback.pending_tranche.formats [0]) ∧
    tranche_formats_resolve (fun _ => true) [(DRM_FORMAT_XRGB8888, 7)]
      surface_fx_steal.pending_dmabuf_feedback.pending_tranche.formats [0] ≠ [] := by
  refine ⟨tranche_formats_table_steal (fun _ => true) surface_fx_steal [0]
    [(DRM_FORMAT_XRGB8888, 7)] 16 (by decide) (by decide), ?_⟩
  decide

/-! ## Claim C4: acquire returns the lowest free image index -/

/-- C4: in an acquire call whose first pass dispatches successfully and
then finds a free image, the call returns at once with the lowest index
whose busy flag is false, marks that image busy, and reports SUBOPTIMAL
exactly when the swapchain's suboptimal flag is set (SUCCESS otherwise);
the flag itself is carried over from before the call (possibly set by a
dispatched feedback commit) and is never cleared by acquire. -/
theorem acquire_returns_first_free_image (chain : wsi_wl_swapchain_state)
    (ev : acquire_pass_outcomes) (rest : List acquire_pass_outcomes) (i : Nat)
    (hd : ev.dispatch_ok = true)
    (hfind : find_free_image ev.images_after_dispatch = some i) :
    (∃ img ∈ ev.images_after_dispatch, img.busy = false) ∧
    (∃ img, ev.images_after_dispatch[i]? = some img ∧ img.busy = false) ∧
    (∀ j, j < i → ∀ img, ev.images_after_dispatch[j]? = some img → img.busy = true) ∧
    wsi_wl_swapchain_acquire_next_image chain (ev :: rest) =
      some
        ((if (acquire_dispatch_apply chain ev).suboptimal then VK_SUBOPTIMAL_KHR
          else VK_SUCCESS),
         some i,
         { acquire_dispatch_apply chain ev with
             images := (acquire_dispatch_apply chain ev).images.set i { busy := true } }) ∧
    (acquire_dispatch_apply chain ev).suboptimal = (chain.suboptimal || ev.suboptimal_set) ∧
    (chain.suboptimal = true → (acquire_dispatch_apply chain ev).suboptimal = true) := by
  obtain ⟨⟨img, hget, hbusy⟩, hleast⟩ := find_free_image_spec ev.images_after_dispatch i hfind
  have himg : (acquire_dispatch_apply chain ev).images = ev.images_after_dispatch := rfl
  refine ⟨⟨img, List.mem_iff_getElem?.mpr ⟨i, hget⟩, hbusy⟩, ⟨img, hget, hbusy⟩, hleast,
    ?_, rfl, ?_⟩
  · simp only [wsi_wl_swapchain_acquire_next_image, wsi_wl_swapchain_acquire_pass, hd,
      Bool.true_eq_false, if_false, himg, hfind]
  · intro hs
    simp [acquire_dispatch_apply, hs]

/-- C4 witness: a two-image swapchain whose dispatch frees image 1 makes
acquire return index 1 immediately. -/
theorem acquire_returns_first_free_image_witness :
    wsi_wl_swapchain_acquire_next_image chain_fx [acquire_ev_free] =
      some
        ((if (acquire_dispatch_apply chain_fx acquire_ev_free).suboptimal then VK_SUBOPTIMAL_KHR
          else VK_SUCCESS),
         some 1,
         { acquire_dispatch_apply chain_fx acquire_ev_free with
             images :=
               (acquire_dispatch_apply chain_fx acquire_ev_free).images.set 1
                 { busy := true } }) :=
  (acquire_returns_first_free_image chain_fx acquire_ev_free [] 1 rfl (by decide)).2.2.2.1

/-! ## Claim C5: I/O outcome classification inside the acquire loop -/

/-- C5: in a pass that found no free image and has not reached the
deadline, a prepare-read EAGAIN, an EINTR or EAGAIN from ppoll, and a zero
ppoll return all make the call transparently continue with the remaining
passes (the pass outcome is never surfaced to the caller); a dispatch
failure, any other prepare-read errno, any other negative ppoll errno, and
a read-events failure each make the call return OUT_OF_DATE. -/
theorem acquire_io_error_classification (chain : wsi_wl_swapchain_state)
    (ev : acquire_pass_outcomes) (rest : List acquire_pass_outcomes) :
    (ev.dispatch_ok = false →
      wsi_wl_swapchain_acquire_next_image chain (ev :: rest) =
        some (VK_ERROR_OUT_OF_DATE_KHR, none, chain)) ∧
    (ev.dispatch_ok = true →
     find_free_image ev.images_after_dispatch = none →
     ev.timed_out = false →
      ((ev.prepare_read = prepare_read_outcome.err EAGAIN →
         wsi_wl_swapchain_acquire_next_image chain (ev :: rest) =
           wsi_wl_swapchain_acquire_next_image (acquire_dispatch_apply chain ev) rest) ∧
       (∀ e, ev.prepare_read = prepare_read_outcome.err e → e ≠ EAGAIN →
         wsi_wl_swapchain_acquire_next_image chain (ev :: rest) =
           some (VK_ERROR_OUT_OF_DATE_KHR, none, acquire_dispatch_apply chain ev)) ∧
       (ev.prepare_read = prepare_read_outcome.ok → ev.poll = poll_outcome.zero →
         wsi_wl_swapchain_acquire_next_image chain (ev :: rest) =
           wsi_wl_swapchain_acquire_next_image (acquire_dispatch_apply chain ev) rest) ∧
       (∀ e, ev.prepare_read = prepare_read_outcome.ok → ev.poll = poll_outcome.neg e →
         (e = EINTR ∨ e = EAGAIN) →
         wsi_wl_swapchain_acquire_next_image chain (ev :: rest) =
           wsi_wl_swapchain_acquire_next_image (acquire_dispatch_apply chain ev) rest) ∧
       (∀ e, ev.prepare_read = prepare_read_outcome.ok → ev.poll = poll_outcome.neg e →
         e ≠ EINTR → e ≠ EAGAIN →
         wsi_wl_swapchain_acquire_next_image chain (ev :: rest) =
           some (VK_ERROR_OUT_OF_DATE_KHR, none, acquire_dispatch_apply chain ev)) ∧
       (ev.prepare_read = prepare_read_outcome.ok → ev.poll = poll_outcome.pos →
         ev.read_events_ok = false →
         wsi_wl_swapchain_acquire_next_image chain (ev :: rest) =
           some (VK_ERROR_OUT_OF_DATE_KHR, none, acquire_dispatch_apply chain ev)))) := by
  have himg : (acquire_dispatch_apply chain ev).images = ev.images_after_dispatch := rfl
  constructor
  · intro hd
    simp [wsi_wl_swapchain_acquire_next_image, wsi_wl_swapchain_acquire_pass, hd,
      if_pos rfl]
  · intro hd hfind htime
    refine ⟨?_, ?_, ?_, ?_, ?_, ?_⟩
    · intro hp
      simp [wsi_wl_swapchain_acquire_next_image, wsi_wl_swapchain_acquire_pass, hd,
        Bool.true_eq_false, if_false, himg, hfind, htime, hp, if_pos rfl]
    · intro e hp hne
      simp [wsi_wl_swapchain_acquire_next_image, wsi_wl_swapchain_acquire_pass, hd,
        Bool.true_eq_false, if_false, himg, hfind, htime, hp, if_neg hne]
    · intro hp hpoll
      simp [wsi_wl_swapchain_acquire_next_image, wsi_wl_swapchain_acquire_pass, hd,
        Bool.true_eq_false, if_false, himg, hfind, htime, hp, hpoll]
    · intro e hp hpoll herr
      simp [wsi_wl_swapchain_acquire_next_image, wsi_wl_swapchain_acquire_pass, hd,
        Bool.true_eq_false, if_false, himg, hfind, htime, hp, hpoll, if_pos herr]
    · intro e hp hpoll h1 h2
      have herr : ¬(e = EINTR ∨ e = EAGAIN) := by
        intro hc; rcases hc with hc | hc
        · exact h1 hc
        · exact h2 hc
      simp [wsi_wl_swapchain_acquire_next_image, wsi_wl_swapchain_acquire_pass, hd,
        Bool.true_eq_false, if_false, himg, hfind, htime, hp, hpoll, if_neg herr]
    · intro hp hpoll hread
      simp [wsi_wl_swapchain_acquire_next_image, wsi_wl_swapchain_acquire_pass, hd,
        Bool.true_eq_false, if_false, himg, hfind, htime, hp, hpoll, hread,
        Bool.false_eq_true, if_false]

/-- C5 witness: on a fully-busy one-image swapchain, a prepare-read EAGAIN
pass retries transparently (here: exhausts the oracle, still blocked),
an interrupted ppoll retries, and a ppoll failing with a non-retry errno
returns OUT_OF_DATE. -/
theorem acquire_io_error_classification_witness :
    (wsi_wl_swapchain_acquire_next_image chain_fx
        [acquire_ev_fx (prepare_read_outcome.err EAGAIN) poll_outcome.pos true] =
      wsi_wl_swapchain_acquire_next_image
        (acquire_dispatch_apply chain_fx
          (acquire_ev_fx (prepare_read_outcome.err EAGAIN) poll_outcome.pos true)) []) ∧
    (wsi_wl_swapchain_acquire_next_image chain_fx
        [acquire_ev_fx prepare_read_outcome.ok (poll_outcome.neg EINTR) true] =
      wsi_wl_swapchain_acquire_next_image
        (acquire_dispatch_apply chain_fx
          (acquire_ev_fx prepare_read_outcome.ok (poll_outcome.neg EINTR) true)) []) ∧
    (wsi_wl_swapchain_acquire_next_image chain_fx
        [acquire_ev_fx prepare_read_outcome.ok (poll_outcome.neg 5) true] =
      some (VK_ERROR_OUT_OF_DATE_KHR, none,
        acquire_dispatch_apply chain_fx
          (acquire_ev_fx prepare_read_outcome.ok (poll_outcome.neg 5) true))) := by
  refine ⟨?_, ?_, ?_⟩
  · exact ((acquire_io_error_classification chain_fx
      (acquire_ev_fx (prepare_read_outcome.err EAGAIN) poll_outcome.pos true) []).2
      rfl (by decide) rfl).1 rfl
  · exact (((acquire_io_error_classification chain_fx
      (acquire_ev_fx prepare_read_outcome.ok (poll_outcome.neg EINTR) true) []).2
      rfl (by decide) rfl).2.2.2.1 EINTR rfl rfl (Or.inl rfl))
  · exact (((acquire_io_error_classification chain_fx
      (acquire_ev_fx prepare_read_outcome.ok (poll_outcome.neg 5) true) []).2
      rfl (by decide) rfl).2.2.2.2.1 5 rfl rfl (by decide) (by decide))

/-! ## Claim C6: FIFO pacing in queue_present -/

/-- The wait loop exits at once when fifo_ready already holds. -/
theorem queue_present_fifo_wait_ready (chain : wsi_wl_swapchain_state)
    (dispatches : List dispatch_outcome) (h : chain.fifo_ready = true) :
    queue_present_fifo_wait chain dispatches = fifo_wait_result.ready chain := by
  cases dispatches with
  | nil => simp [queue_present_fifo_wait, h]
  | cons d rest => simp [queue_present_fifo_wait, h]

/-- C6: under FIFO present mode, a queue_present issued while fifo_ready
is false blocks dispatching events: as long as no dispatched batch fires
the frame callback the call is still blocked; once a batch fires
frame_handle_done (setting fifo_ready), the call proceeds and succeeds;
and every successful FIFO present leaves the swapchain with a freshly
registered frame callback and fifo_ready reset to false, with the
presented image marked busy. -/
theorem queue_present_fifo_pacing (chain : wsi_wl_swapchain_state)
    (image_index : Nat) (ds1 ds2 : List dispatch_outcome)
    (hm : chain.present_mode = VK_PRESENT_MODE_FIFO_KHR)
    (hnr : chain.fifo_ready = false)
    (h1 : ∀ d ∈ ds1, d = dispatch_outcome.ok false) :
    wsi_wl_swapchain_queue_present chain image_index ds1 = present_result.blocked ∧
    wsi_wl_swapchain_queue_present chain image_index
        (ds1 ++ dispatch_outcome.ok true :: ds2) =
      present_result.returned VK_SUCCESS
        { frame_handle_done chain with
            frame := some ()
            fifo_ready := false
            images := (frame_handle_done chain).images.set image_index { busy := true } } ∧
    (∀ ds chain2,
      wsi_wl_swapchain_queue_present chain image_index ds =
        present_result.returned VK_SUCCESS chain2 →
      chain2.frame = some () ∧ chain2.fifo_ready = false) := by
  have hwait1 : ∀ (l : List dispatch_outcome), (∀ d ∈ l, d = dispatch_outcome.ok false) →
      queue_present_fifo_wait chain l = fifo_wait_result.blocked := by
    intro l
    induction l with
    | nil => intro _; simp [queue_present_fifo_wait, hnr]
    | cons d rest ih =>
      intro hall
      have hd := hall d (by simp)
      subst hd
      have : present_dispatch_apply chain false = chain := rfl
      simp only [queue_present_fifo_wait, hnr, Bool.false_eq_true, if_false, this]
      exact ih (fun d2 h2 => hall d2 (by simp [h2]))
  have hwait2 : ∀ (l : List dispatch_outcome), (∀ d ∈ l, d = dispatch_outcome.ok false) →
      queue_present_fifo_wait chain (l ++ dispatch_outcome.ok true :: ds2) =
        fifo_wait_result.ready (frame_handle_done chain) := by
    intro l
    induction l with
    | nil =>
      intro _
      simp only [List.nil_append, queue_present_fifo_wait, hnr, Bool.false_eq_true, if_false]
      have happ : present_dispatch_apply chain true = frame_handle_done chain := rfl
      rw [happ]
      exact queue_present_fifo_wait_ready (frame_handle_done chain) ds2 rfl
    | cons d rest ih =>
      intro hall
      have hd := hall d (by simp)
      subst hd
      have : present_dispatch_apply chain false = chain := rfl
      simp only [List.cons_append, queue_present_fifo_wait, hnr, Bool.false_eq_true,
        if_false, this]
      exact ih (fun d2 h2 => hall d2 (by simp [h2]))
  refine ⟨?_, ?_, ?_⟩
  · simp [wsi_wl_swapchain_queue_present, hm, hwait1 ds1 h1]
  · simp [wsi_wl_swapchain_queue_present, hm, hwait2 ds1 h1]
  · intro ds chain2 hres
    simp only [wsi_wl_swapchain_queue_present, hm, if_pos rfl] at hres
    rcases hq : queue_present_fifo_wait chain ds with _ | c | c <;> rw [hq] at hres
    · exact absurd hres (by simp)
    · exact absurd hres (by simp [VK_ERROR_OUT_OF_DATE_KHR, VK_SUCCESS])
    · have := (present_result.returned.injEq _ _ _ _).mp hres
      rw [← this.2]
      exact ⟨rfl, rfl⟩

/-- C6 witness: on the concrete FIFO swapchain with fifo_ready false, one
frame-callback-free dispatch leaves present blocked, and a subsequent
frame-done dispatch lets it complete with a new callback registered. -/
theorem queue_present_fifo_pacing_witness :
    wsi_wl_swapchain_queue_present chain_fx 0 [dispatch_outcome.ok false] =
      present_result.blocked ∧
    wsi_wl_swapchain_queue_present chain_fx 0
        ([dispatch_outcome.ok false] ++ dispatch_outcome.ok true :: []) =
      present_result.returned VK_SUCCESS
        { frame_handle_done chain_fx with
            frame := some ()
            fifo_ready := false
            images := (frame_handle_done chain_fx).images.set 0 { busy := true } } := by
  have h := queue_present_fifo_pacing chain_fx 0 [dispatch_outcome.ok false] []
    rfl rfl (by decide)
  exact ⟨h.1, h.2.1⟩

/-! ## Claim C7: catalog idempotence -/

theorem find_format_eq_none_iff (formats : List wsi_wl_format) (f : Nat) :
    find_format formats f = none ↔ ∀ e ∈ formats, e.vk_format ≠ f := by
  simp [find_format, List.find?_eq_none]

theorem update_format_append (formats : List wsi_wl_format) (e : wsi_wl_format)
    (f : Nat) (g : wsi_wl_format → wsi_wl_format)
    (h : ∀ x ∈ formats, x.vk_format ≠ f) (he : e.vk_format = f) :
    update_format (formats ++ [e]) f g = formats ++ [g e] := by
  induction formats with
  | nil => simp [update_format, he]
  | cons a rest ih =>
    have ha : a.vk_format ≠ f := h a (by simp)
    simp only [List.cons_append, update_format]
    rw [if_neg (by simpa using ha)]
    simp only [List.append_eq]
    rw [ih (fun x hx => h x (by simp [hx]))]

theorem find_format_append_last (formats : List wsi_wl_format) (e : wsi_wl_format)
    (f : Nat) (h : ∀ x ∈ formats, x.vk_format ≠ f) (he : e.vk_format = f) :
    find_format (formats ++ [e]) f = some e := by
  induction formats with
  | nil => simp [find_format, List.find?, he]
  | cons a rest ih =>
    have ha : (a.vk_format == f) = false := by simpa using h a (by simp)
    rw [show (a :: rest) ++ [e] = a :: (rest ++ [e]) from rfl]
    rw [show find_format (a :: (rest ++ [e])) f =
        (if (a.vk_format == f) = true then some a else find_format (rest ++ [e]) f) from by
      by_cases hb : (a.vk_format == f) = true
      · simp [find_format, List.find?, hb]
      · simp only [find_format, List.find?]
        rw [show (a.vk_format == f) = false by simpa using hb]
        simp [hb]]
    rw [ha]
    simp only [Bool.false_eq_true, if_false]
    exact ih (fun x hx => h x (by simp [hx]))

theorem add_modifier_vk_format (e : wsi_wl_format) (m : Nat) :
    (wsi_wl_format_add_modifier e m).vk_format = e.vk_format := by
  unfold wsi_wl_format_add_modifier
  split
  · rfl
  · split <;> rfl

theorem add_modifier_flags (e : wsi_wl_format) (m : Nat) :
    (wsi_wl_format_add_modifier e m).flags = e.flags := by
  unfold wsi_wl_format_add_modifier
  split
  · rfl
  · split <;> rfl

/-- C7: inserting the same (format, modifier) pair twice into a catalog
that does not yet hold the (renderable) format leaves exactly one entry
for that format; its flags are the union of the two insertions' flags, the
modifier is stored at most once, and the DRM invalid sentinel is never
stored.  The flag hypotheses mirror the assert at the top of
wsi_wl_display_add_vk_format. -/
theorem catalog_add_idempotent (renderable : Nat → Bool)
    (formats : List wsi_wl_format) (f m fl1 fl2 : Nat)
    (hnotin : find_format formats f = none)
    (hrend : renderable f = true)
    (hfl1 : fl1 &&& (WSI_WL_FMT_ALPHA ||| WSI_WL_FMT_OPAQUE) ≠ 0)
    (hfl2 : fl2 &&& (WSI_WL_FMT_ALPHA ||| WSI_WL_FMT_OPAQUE) ≠ 0) :
    ∃ e : wsi_wl_format,
      wsi_wl_display_add_vk_format_modifier renderable
          (wsi_wl_display_add_vk_format_modifier renderable formats f fl1 m)
          f fl2 m =
        formats ++ [e] ∧
      (formats ++ [e]).countP (fun x => x.vk_format == f) = 1 ∧
      find_format (formats ++ [e]) f = some e ∧
      e.vk_format = f ∧
      e.flags = fl1 ||| fl2 ∧
      e.modifiers.count m ≤ 1 ∧
      DRM_FORMAT_MOD_INVALID ∉ e.modifiers := by
  have hall : ∀ x ∈ formats, x.vk_format ≠ f :=
    (find_format_eq_none_iff formats f).mp hnotin
  have hE1vk : (wsi_wl_format_add_modifier
      { vk_format := f, flags := fl1, modifiers := [] } m).vk_format = f :=
    add_modifier_vk_format _ m
  have hc1 : wsi_wl_display_add_vk_format_modifier renderable formats f fl1 m =
      formats ++ [wsi_wl_format_add_modifier
        { vk_format := f, flags := fl1, modifiers := [] } m] := by
    unfold wsi_wl_display_add_vk_format_modifier wsi_wl_display_add_vk_format
    rw [hnotin]
    simp only [hrend, if_true]
    exact update_format_append formats _ f _ hall rfl
  have hfind1 : find_format (formats ++ [wsi_wl_format_add_modifier
      { vk_format := f, flags := fl1, modifiers := [] } m]) f =
      some (wsi_wl_format_add_modifier
        { vk_format := f, flags := fl1, modifiers := [] } m) :=
    find_format_append_last formats _ f hall hE1vk
  have hc2 : wsi_wl_display_add_vk_format_modifier renderable
      (wsi_wl_display_add_vk_format_modifier renderable formats f fl1 m) f fl2 m =
      formats ++ [wsi_wl_format_add_modifier
        { wsi_wl_format_add_modifier { vk_format := f, flags := fl1, modifiers := [] } m
          with flags :=
            (wsi_wl_format_add_modifier
              { vk_format := f, flags := fl1, modifiers := [] } m).flags ||| fl2 } m] := by
    rw [hc1]
    unfold wsi_wl_display_add_vk_format_modifier wsi_wl_display_add_vk_format
    rw [hfind1]
    rw [update_format_append formats _ f _ hall hE1vk]
    exact update_format_append formats _ f _ hall hE1vk
  by_cases hm : m = DRM_FORMAT_MOD_INVALID
  · subst hm
    refine ⟨{ vk_format := f, flags := fl1 ||| fl2, modifiers := [] }, ?_, ?_, ?_, rfl, rfl,
      by simp, by simp⟩
    · rw [hc2]
      simp [wsi_wl_format_add_modifier]
    · rw [List.countP_append]
      rw [List.countP_eq_zero.mpr (fun a ha => by simpa using hall a ha)]
      simp
    · exact find_format_append_last formats _ f hall rfl
  · refine ⟨{ vk_format := f, flags := fl1 ||| fl2, modifiers := [m] }, ?_, ?_, ?_, rfl, rfl,
      by simp, by simp [Ne.symm hm]⟩
    · rw [hc2]
      simp [wsi_wl_format_add_modifier, hm]
    · rw [List.countP_append]
      rw [List.countP_eq_zero.mpr (fun a ha => by simpa using hall a ha)]
      simp
    · exact find_format_append_last formats _ f hall rfl

/-- C7 witness: inserting (format 1, modifier 5) twice into the empty
catalog with alpha then opaque flags. -/
theorem catalog_add_idempotent_witness :
    ∃ e : wsi_wl_format,
      wsi_wl_display_add_vk_format_modifier (fun _ => true)
          (wsi_wl_display_add_vk_format_modifier (fun _ => true) [] 1 WSI_WL_FMT_ALPHA 5)
          1 WSI_WL_FMT_OPAQUE 5 =
        ([] : List wsi_wl_format) ++ [e] ∧
      (([] : List wsi_wl_format) ++ [e]).countP (fun x => x.vk_format == 1) = 1 ∧
      find_format (([] : List wsi_wl_format) ++ [e]) 1 = some e ∧
      e.vk_format = 1 ∧
      e.flags = WSI_WL_FMT_ALPHA ||| WSI_WL_FMT_OPAQUE ∧
      e.modifiers.count 5 ≤ 1 ∧
      DRM_FORMAT_MOD_INVALID ∉ e.modifiers :=
  catalog_add_idempotent (fun _ => true) [] 1 5 WSI_WL_FMT_ALPHA WSI_WL_FMT_OPAQUE
    rfl rfl (by decide) (by decide)

/-! ## Claim C8: unchecked table indexing (code bug) -/

/-- C8 evaluation: on a mapped one-record table of 16 bytes, both the
per-surface and the connection-wide tranche_formats handlers dereference
the record at index 1 — which lies entirely outside the mapped region —
because neither compares the received index against the table size. -/
theorem tranche_formats_unchecked_index :
    surface_tranche_formats_dereferenced surface_fx_table [1] = [1] ∧
    default_tranche_formats_dereferenced table_fx [1] = [1] ∧
    tranche_formats_indices_in_bounds table_fx [1] = false := by
  decide

/-! ## Claim C9: the support query is constant -/

/-- C9: wsi_wl_surface_get_support returns VK_SUCCESS and reports support
for every surface, device and queue family index; the result does not
depend on any argument. -/
theorem surface_get_support_constant :
    ∀ (a b c a2 b2 c2 : Nat),
      wsi_wl_surface_get_support a b c = wsi_wl_surface_get_support a2 b2 c2 ∧
      wsi_wl_surface_get_support a b c = (VK_SUCCESS, true) :=
  fun _ _ _ _ _ _ => ⟨rfl, rfl⟩

/-! ## Claim C10: initial state of a fresh swapchain -/

/-- C10: a newly created swapchain starts with fifo_ready true, no
outstanding frame callback and every image free; consequently the first
queue_present succeeds without consuming a single dispatched event (the
FIFO wait loop is not entered), and the first acquire — whose dispatch, on
a fresh connection with nothing queued, frees or changes nothing — returns
image index 0 with VK_SUCCESS on its first pass, before any deadline
check. -/
theorem fresh_swapchain_initial_state (num_images vk_format present_mode : Nat)
    (drm_modifiers : List Nat) (image_index : Nat) (ev : acquire_pass_outcomes)
    (hn : 0 < num_images)
    (hd : ev.dispatch_ok = true)
    (hi : ev.images_after_dispatch =
      (wsi_wl_surface_create_swapchain num_images vk_format present_mode
        drm_modifiers).images)
    (hs : ev.suboptimal_set = false) :
    (wsi_wl_surface_create_swapchain num_images vk_format present_mode
      drm_modifiers).fifo_ready = true ∧
    (wsi_wl_surface_create_swapchain num_images vk_format present_mode
      drm_modifiers).frame = none ∧
    (∀ img ∈ (wsi_wl_surface_create_swapchain num_images vk_format present_mode
      drm_modifiers).images, img.busy = false) ∧
    (∃ chain2,
      wsi_wl_swapchain_queue_present
          (wsi_wl_surface_create_swapchain num_images vk_format present_mode drm_modifiers)
          image_index [] =
        present_result.returned VK_SUCCESS chain2) ∧
    wsi_wl_swapchain_acquire_next_image
        (wsi_wl_surface_create_swapchain num_images vk_format present_mode drm_modifiers)
        [ev] =
      some (VK_SUCCESS, some 0,
        { wsi_wl_surface_create_swapchain num_images vk_format present_mode drm_modifiers
          with images :=
            (wsi_wl_surface_create_swapchain num_images vk_format present_mode
              drm_modifiers).images.set 0 { busy := true } }) := by
  obtain ⟨m, rfl⟩ : ∃ m, num_images = m + 1 := ⟨num_images - 1, by omega⟩
  refine ⟨rfl, rfl, ?_, ?_, ?_⟩
  · intro img hmem
    have := List.eq_of_mem_replicate
      (show img ∈ List.replicate (m + 1) { busy := false } from hmem)
    rw [this]
  · by_cases hf : present_mode = VK_PRESENT_MODE_FIFO_KHR
    · refine ⟨{ wsi_wl_surface_create_swapchain (m + 1) vk_format present_mode drm_modifiers
          with frame := some ()
               fifo_ready := false
               images := (wsi_wl_surface_create_swapchain (m + 1) vk_format present_mode
                 drm_modifiers).images.set image_index { busy := true } }, ?_⟩
      simp [wsi_wl_swapchain_queue_present, wsi_wl_surface_create_swapchain, hf,
        queue_present_fifo_wait]
    · refine ⟨{ wsi_wl_surface_create_swapchain (m + 1) vk_format present_mode drm_modifiers
          with images := (wsi_wl_surface_create_swapchain (m + 1) vk_format present_mode
                 drm_modifiers).images.set image_index { busy := true } }, ?_⟩
      simp only [wsi_wl_swapchain_queue_present, wsi_wl_surface_create_swapchain]
      rw [if_neg hf]
  · have happly : acquire_dispatch_apply
        (wsi_wl_surface_create_swapchain (m + 1) vk_format present_mode drm_modifiers) ev =
        wsi_wl_surface_create_swapchain (m + 1) vk_format present_mode drm_modifiers := by
      simp [acquire_dispatch_apply, hi, hs, wsi_wl_surface_create_swapchain]
    have hfind : find_free_image
        (wsi_wl_surface_create_swapchain (m + 1) vk_format present_mode
          drm_modifiers).images = some 0 := by
      simp [wsi_wl_surface_create_swapchain, List.replicate_succ, find_free_image]
    have hsub : (wsi_wl_surface_create_swapchain (m + 1) vk_format present_mode
        drm_modifiers).suboptimal = false := rfl
    simp only [wsi_wl_swapchain_acquire_next_image, wsi_wl_swapchain_acquire_pass, hd,
      Bool.true_eq_false, if_false, happly, hfind, hsub, Bool.false_eq_true]

/-- C10 witness: a fresh four-image FIFO swapchain of format 5. -/
theorem fresh_swapchain_initial_state_witness :
    chain_fresh.fifo_ready = true ∧
    chain_fresh.frame = none ∧
    (∀ img ∈ chain_fresh.images, img.busy = false) ∧
    (∃ chain2,
      wsi_wl_swapchain_queue_present chain_fresh 0 [] =
        present_result.returned VK_SUCCESS chain2) ∧
    wsi_wl_swapchain_acquire_next_image chain_fresh [acquire_ev_fresh] =
      some (VK_SUCCESS, some 0,
        { chain_fresh with images := chain_fresh.images.set 0 { busy := true } }) :=
  fresh_swapchain_initial_state 4 5 VK_PRESENT_MODE_FIFO_KHR [2] 0 acquire_ev_fresh
    (by decide) rfl (by decide) rfl

end WsiWayland
